import Mathlib

/-!
Verification of the PDF merge/split backend (Express + pdf-lib + mongoose).

Shallow embedding of the page-selection and orchestration logic:
* `src/services/pdfService.js` — `mergePdfFiles`, `splitPdfFile` (pages /
  range / size strategies), `parsePageRange`, output filename generation;
* `src/config/database.js` (pdfController) — `uploadFiles`, `mergePdfs`,
  `processMergeOperation`, `processSplitOperation`, `bulkDownload`;
* the mongoose model (`PdfOperation`) — schema enum for `operationType`,
  `markAsProcessing` / `markAsCompleted` / `markAsFailed`;
* the validation middleware — `validateSplitRequest` range checks.

Documents are represented by the list of their pages; a page is identified by
a natural number (for split plans, its 0-based index in the source document).
-/

namespace PdfBackend

/-! ## Merge pipeline

`mergePdfs` (src/config/database.js) attaches to each uploaded file an
`order` field computed as the JS expression `mergeOrder[index] || index`:
a missing entry *or the value 0* (falsy) falls back to the positional index.
`processMergeOperation` then reorders the files by
`mergeOrder.map(index => inputFiles[index]).filter(Boolean)`, and
`mergePdfFiles` (src/services/pdfService.js) re-sorts that list with the
stable `Array.prototype.sort((a, b) => (a.order || 0) - (b.order || 0))`
before concatenating all pages of each file in order. -/

/-- A file entering `mergePdfFiles`: its pages plus the `order` field the
merge handler attached. -/
structure MergeFile where
  pages : List Nat
  order : Nat
deriving DecidableEq, Repr

/-- JS `mergeOrder[index] || index`: a missing entry or the (falsy) value 0
falls back to the positional index. -/
def orderValue (mergeOrder : List Nat) (index : Nat) : Nat :=
  match mergeOrder.get? index with
  | some v => if v = 0 then index else v
  | none => index

/-- The merge handler's `req.files.map((file, index) => ({..., order:
mergeOrder[index] || index}))`, with `i` the index of the first element. -/
def attachOrdersAux (mergeOrder : List Nat) (i : Nat) :
    List (List Nat) → List MergeFile
  | [] => []
  | pages :: rest =>
    ⟨pages, orderValue mergeOrder i⟩ :: attachOrdersAux mergeOrder (i + 1) rest

def attachOrders (inputs : List (List Nat)) (mergeOrder : List Nat) :
    List MergeFile :=
  attachOrdersAux mergeOrder 0 inputs

/-- `processMergeOperation`'s ordering step: with a non-empty `mergeOrder`,
`mergeOrder.map(index => inputFiles[index]).filter(Boolean)`; out-of-range
indices yield `undefined` and are filtered out. -/
def orderedFiles (files : List MergeFile) (mergeOrder : List Nat) :
    List MergeFile :=
  if mergeOrder.isEmpty then files
  else mergeOrder.filterMap (fun index => files.get? index)

/-- `mergePdfFiles`: stable sort by the `order` field
(`(a.order || 0) - (b.order || 0)` under the stable `Array.prototype.sort`),
then append every page of every file in order.  `List.insertionSort` with a
total `≤` relation is exactly a stable ascending sort. -/
def mergePdfFiles (files : List MergeFile) : List Nat :=
  ((files.insertionSort (fun a b => a.order ≤ b.order)).map MergeFile.pages).flatten

/-- The complete merge path for one request: handler (`mergePdfs`) attaches
order fields, `processMergeOperation` permutes by `mergeOrder`, and
`mergePdfFiles` sorts and concatenates. -/
def mergePipeline (inputs : List (List Nat)) (mergeOrder : List Nat) :
    List Nat :=
  mergePdfFiles (orderedFiles (attachOrders inputs mergeOrder) mergeOrder)

/-! ## Split plans (`splitPdfFile`, src/services/pdfService.js) -/

/-- The `pages` strategy: one single-page output per page of the input
(`for (let i = 0; i < totalPages; i++) { ... copyPages(pdf, [i]) ... }`). -/
def splitPagesPlan (totalPages : Nat) : List (List Nat) :=
  (List.range totalPages).map (fun i => [i])

/-- `Math.ceil(totalPages / validPagesPerFile)` — ceiling division on
naturals. -/
def numberOfFiles (totalPages k : Nat) : Nat := (totalPages + k - 1) / k

/-- The `size` strategy: `validPagesPerFile = Math.max(1, parseInt(k))`;
chunk `fileIndex` copies the 0-based pages
`[fileIndex*k, min(fileIndex*k + k, totalPages))`. -/
def splitSizePlan (totalPages pagesPerFile : Nat) : List (List Nat) :=
  let k := max 1 pagesPerFile
  (List.range (numberOfFiles totalPages k)).map (fun fileIndex =>
    let startPage := fileIndex * k
    let endPage := min (startPage + k) totalPages
    List.range' startPage (endPage - startPage))

/-! ## Page-range parsing (`parsePageRange`, src/services/pdfService.js)

JS string primitives (`trim`, `split('-')`, `includes('-')`, `parseInt`)
are embedded as structurally recursive functions on the character list of
the string. -/

/-- JS `String.prototype.trim`: strip whitespace from both ends. -/
def trimChars (cs : List Char) : List Char :=
  ((cs.dropWhile Char.isWhitespace).reverse.dropWhile Char.isWhitespace).reverse

/-- JS `String.prototype.split` with a one-character separator: `"1-"`
splits into `["1", ""]`, `"1-2-3"` into `["1", "2", "3"]`. -/
def splitOnChar (c : Char) : List Char → List (List Char)
  | [] => [[]]
  | x :: xs =>
    if x = c then [] :: splitOnChar c xs
    else
      match splitOnChar c xs with
      | [] => [[x]]
      | h :: t => (x :: h) :: t

/-- Digits of a decimal literal folded into a natural number. -/
def digitsToNat (ds : List Char) : Nat :=
  ds.foldl (fun acc c => acc * 10 + (c.toNat - '0'.toNat)) 0

/-- The longest leading run of decimal digits, or `none` when there is
none (JS `NaN`). -/
def leadingDigits (cs : List Char) : Option Nat :=
  let ds := cs.takeWhile Char.isDigit
  if ds.isEmpty then none else some (digitsToNat ds)

/-- JS `parseInt(s)` at radix 10 on an already-trimmed string: an optional
sign followed by a longest digit prefix; `none` models `NaN`. -/
def parseIntJS (cs : List Char) : Option Int :=
  match cs with
  | '-' :: rest => (leadingDigits rest).map (fun n => -(n : Int))
  | '+' :: rest => (leadingDigits rest).map (fun n => (n : Int))
  | other => (leadingDigits other).map (fun n => (n : Int))

/-- `parsePageRange(range, totalPages)`: trims, splits on `-` when present
(destructuring keeps the first two parts, each `parseInt(part.trim())`ed),
and fails when either part is `NaN`, `start < 1`, `end > totalPages` or
`start > end`; a dash-free token must be a page number in
`[1, totalPages]`.  On success, returns the 1-based inclusive pair
`(startPage, endPage)`. -/
def parsePageRange (range : String) (totalPages : Nat) :
    Except String (Nat × Nat) :=
  let rangeStr := trimChars range.data
  if rangeStr.contains '-' then
    let parts := splitOnChar '-' rangeStr
    match parseIntJS (trimChars (parts.getD 0 [])),
          parseIntJS (trimChars (parts.getD 1 [])) with
    | some s, some e =>
      if s < 1 ∨ e > (totalPages : Int) ∨ s > e then
        .error ("Invalid page range: " ++ range ++ ". Pages must be between 1 and "
          ++ toString totalPages)
      else
        .ok (s.toNat, e.toNat)
    | _, _ =>
      .error ("Invalid page range: " ++ range ++ ". Pages must be between 1 and "
        ++ toString totalPages)
  else
    match parseIntJS rangeStr with
    | some n =>
      if n < 1 ∨ n > (totalPages : Int) then
        .error ("Invalid page number: " ++ range ++ ". Pages must be between 1 and "
          ++ toString totalPages)
      else
        .ok (n.toNat, n.toNat)
    | none =>
      .error ("Invalid page number: " ++ range ++ ". Pages must be between 1 and "
        ++ toString totalPages)

/-- The 0-based page indices one range output copies:
`for (let i = startPage - 1; i < endPage; i++) pageIndices.push(i)`. -/
def rangePages (startPage endPage : Nat) : List Nat :=
  List.range' (startPage - 1) (endPage + 1 - startPage)

/-- The `range` strategy loop body: ranges are processed strictly in list
order, and each output is written to disk *immediately after its own range
parses* — before the next range is even looked at.  The result is the list
of outputs actually written, paired with the error that aborted the loop,
if any. -/
def splitRangeRun (ranges : List String) (totalPages : Nat) :
    List (List Nat) × Option String :=
  match ranges with
  | [] => ([], none)
  | r :: rest =>
    match parsePageRange r totalPages with
    | .error msg => ([], some msg)
    | .ok (s, e) =>
      let t := splitRangeRun rest totalPages
      (rangePages s e :: t.1, t.2)

/-- The `range` case of `splitPdfFile`: an empty range list throws before
the loop; otherwise the loop above runs. -/
def splitRangeCase (ranges : List String) (totalPages : Nat) :
    List (List Nat) × Option String :=
  if ranges.isEmpty then
    ([], some "Page ranges must be provided for range splitting")
  else splitRangeRun ranges totalPages

/-! ## Split request validation (`validateSplitRequest`,
middlewares/validation.js) -/

/-- A non-empty all-digit character run. -/
def digitsOnly (cs : List Char) : Bool :=
  !cs.isEmpty && cs.all Char.isDigit

/-- The Joi / validator regex `^\d+(-\d+)?$`: digits, optionally a dash and
more digits. -/
def matchRangeFormat (s : String) : Bool :=
  match splitOnChar '-' s.data with
  | [a] => digitsOnly a
  | [a, b] => digitsOnly a && digitsOnly b
  | _ => false

/-- `validateSplitRequest`'s per-token checks, in source order: the format
regex first, then — for a dash range — `start >= end` is rejected
(`parseInt` on both halves). -/
def validateRangeToken (r : String) : Option String :=
  if !matchRangeFormat r then
    some ("Invalid page range format: " ++ r)
  else if r.data.contains '-' then
    let parts := splitOnChar '-' r.data
    match parseIntJS (parts.getD 0 []), parseIntJS (parts.getD 1 []) with
    | some s, some e =>
      if s ≥ e then some ("Invalid page range: " ++ r
        ++ ". Start page must be less than end page")
      else none
    | _, _ => none
  else none

/-- First validation error over the range list, in order. -/
def firstRangeError : List String → Option String
  | [] => none
  | r :: rest =>
    match validateRangeToken r with
    | some e => some e
    | none => firstRangeError rest

/-- `validateSplitRequest` for `splitType = 'range'`: an empty list is
rejected, then every token is checked in order; `none` means the request
passes validation and reaches the split handler. -/
def validateSplitRanges (ranges : List String) : Option String :=
  if ranges.isEmpty then
    some "Page ranges are required when split type is range"
  else firstRangeError ranges

/-! ## The persisted operation record (models/PdfOperation.js) -/

inductive OpStatus where
  | pending
  | processing
  | completed
  | failed
deriving DecidableEq, Repr

/-- One entry of `outputFiles`. -/
structure OutputFile where
  filename : String
  size : Nat
deriving DecidableEq, Repr

/-- The `PdfOperation` document fields the claims are about.  Timestamps
are naturals (milliseconds); `duration` is an integer, as JS date
subtraction is. -/
structure PdfOperationRec where
  operationId : String
  operationType : String
  status : OpStatus
  inputFiles : List String
  outputFiles : List OutputFile
  startTime : Option Nat
  endTime : Option Nat
  duration : Option Int
  errorMessage : Option String
deriving DecidableEq, Repr

/-- Schema enum for `operationType`: `['merge', 'split']`. -/
def operationTypeEnum : List String := ["merge", "split"]

/-- Mongoose enum validation of the `operationType` path. -/
def validOperationType (t : String) : Bool :=
  operationTypeEnum.contains t

/-- `document.save()`: mongoose runs schema validation; an `operationType`
outside the enum rejects the save. -/
def saveRecord (r : PdfOperationRec) : Except String PdfOperationRec :=
  if validOperationType r.operationType then .ok r
  else .error ("PdfOperation validation failed: " ++ r.operationType
    ++ " is not a valid enum value for path operationType")

/-- `markAsProcessing()`: unconditionally sets `status = 'processing'` and
stamps `processing.startTime`; no check of the current status. -/
def markAsProcessing (now : Nat) (r : PdfOperationRec) : PdfOperationRec :=
  { r with status := .processing, startTime := some now }

/-- `markAsCompleted(outputFiles)`: unconditionally sets
`status = 'completed'`, stamps `endTime`, computes
`duration = endTime - startTime` (`none` models the `NaN` of a missing
`startTime`) and overwrites `outputFiles`; no check of the current
status. -/
def markAsCompleted (now : Nat) (outputFiles : List OutputFile)
    (r : PdfOperationRec) : PdfOperationRec :=
  { r with status := .completed, endTime := some now,
           duration := r.startTime.map (fun s => (now : Int) - (s : Int)),
           outputFiles := outputFiles }

/-- `markAsFailed(errorMessage)`: unconditionally sets `status = 'failed'`,
stamps `endTime` and records the message; no check of the current status. -/
def markAsFailed (now : Nat) (msg : String) (r : PdfOperationRec) :
    PdfOperationRec :=
  { r with status := .failed, endTime := some now, errorMessage := some msg }

/-- The record the upload handler (`uploadFiles`, src/config/database.js)
constructs: `operationType: 'upload'`, `status: 'completed'`, and no
`outputFiles` (the schema default, the empty array). -/
def uploadRecord (operationId : String) (inputFiles : List String) :
    PdfOperationRec :=
  { operationId := operationId, operationType := "upload",
    status := .completed, inputFiles := inputFiles, outputFiles := [],
    startTime := none, endTime := none, duration := none,
    errorMessage := none }

/-- A fresh merge/split operation record as the handlers construct it:
`status: 'pending'`, no output files, no processing data. -/
def freshRecord (operationId operationType : String)
    (inputFiles : List String) : PdfOperationRec :=
  { operationId := operationId, operationType := operationType,
    status := .pending, inputFiles := inputFiles, outputFiles := [],
    startTime := none, endTime := none, duration := none,
    errorMessage := none }

/-- The record states a merge/split operation passes through:
`processMergeOperation` / `processSplitOperation` take the freshly created
pending record, call `markAsProcessing`, and then exactly one of
`markAsCompleted` or `markAsFailed`.  A merge completion always passes a
*one-element* descriptor list (the single merged file); a split completion
passes `outputPaths.map(...)` — one descriptor per output path written by
`splitPdfFile`, which is the *empty* list when the input document yielded
no output (e.g. a 0-page document under the `pages` or `size`
strategies). -/
inductive BackgroundReachable : PdfOperationRec → Prop
  | created (opId ty : String) (inputs : List String)
      (hty : ty = "merge" ∨ ty = "split") :
      BackgroundReachable (freshRecord opId ty inputs)
  | processing (opId ty : String) (inputs : List String) (t : Nat)
      (hty : ty = "merge" ∨ ty = "split") :
      BackgroundReachable (markAsProcessing t (freshRecord opId ty inputs))
  | completedMerge (opId : String) (inputs : List String) (t₁ t₂ : Nat)
      (out : OutputFile) :
      BackgroundReachable
        (markAsCompleted t₂ [out]
          (markAsProcessing t₁ (freshRecord opId "merge" inputs)))
  | completedSplit (opId : String) (inputs : List String) (t₁ t₂ : Nat)
      (outs : List OutputFile) :
      BackgroundReachable
        (markAsCompleted t₂ outs
          (markAsProcessing t₁ (freshRecord opId "split" inputs)))
  | failedStep (opId ty : String) (inputs : List String) (t₁ t₂ : Nat)
      (msg : String) (hty : ty = "merge" ∨ ty = "split") :
      BackgroundReachable
        (markAsFailed t₂ msg (markAsProcessing t₁ (freshRecord opId ty inputs)))

/-! ## Output filenames (src/services/pdfService.js) -/

/-- `merged_${operationId}_${Date.now()}.pdf` -/
def mergedFileName (operationId : String) (now : Nat) : String :=
  "merged_" ++ operationId ++ "_" ++ toString now ++ ".pdf"

/-- `split_${operationId}_page_${i + 1}_${Date.now()}.pdf` -/
def splitPageFileName (operationId : String) (i now : Nat) : String :=
  "split_" ++ operationId ++ "_page_" ++ toString (i + 1) ++ "_"
    ++ toString now ++ ".pdf"

/-- `split_${operationId}_range_${startPage}-${endPage}_${Date.now()}.pdf` -/
def splitRangeFileName (operationId : String) (startPage endPage now : Nat) :
    String :=
  "split_" ++ operationId ++ "_range_" ++ toString startPage ++ "-"
    ++ toString endPage ++ "_" ++ toString now ++ ".pdf"

/-- `split_${operationId}_part_${fileIndex + 1}_${Date.now()}.pdf` -/
def splitPartFileName (operationId : String) (fileIndex now : Nat) : String :=
  "split_" ++ operationId ++ "_part_" ++ toString (fileIndex + 1) ++ "_"
    ++ toString now ++ ".pdf"

/-! ## Bulk download (`bulkDownload`, src/config/database.js)

The multi-file branch begins with `const archiver = require('archiver')`.
The controller is an ES module (it uses `import`/`export` and defines no
`require` binding), so evaluating `require` there throws
`ReferenceError: require is not defined` before any archive is created;
the branch is modelled as that error. -/

inductive BulkDownloadResult where
  | notFound
  | notCompleted
  | noOutputFiles
  | redirect (url : String)
  | referenceError (msg : String)
deriving DecidableEq, Repr

def bulkDownload (op : Option PdfOperationRec) : BulkDownloadResult :=
  match op with
  | none => .notFound
  | some r =>
    if r.status ≠ .completed then .notCompleted
    else
      match r.outputFiles with
      | [] => .noOutputFiles
      | [f] => .redirect ("/api/pdf/download/" ++ f.filename)
      | _ => .referenceError "require is not defined"

/-! ## Theorems -/

/-- C1: merging three single-page inputs with the explicit merge order
`[2,0,1]` does *not* put the pages in the permuted source order `[2,0,1]`:
the handler computes each file's `order` field as `mergeOrder[index] ||
index`, so the (falsy) entry `0` falls back to its positional index `1`,
and `mergePdfFiles` re-sorts the already-permuted file list by these keys —
the output page order is `[2,1,0]`. -/
theorem mergeOrder_201_yields_210 :
    mergePipeline [[0], [1], [2]] [2, 0, 1] = [2, 1, 0] ∧
    mergePipeline [[0], [1], [2]] [2, 0, 1] ≠ [2, 0, 1] :=
  ⟨by decide, by decide⟩

/-- C2 counterexample: a record in the terminal status `completed` is moved
back to `processing` by `markAsProcessing` — the method performs no check
of the current status, so the claimed failure of the `pending → processing`
guard (and the claimed terminality of `completed`) does not hold. -/
theorem completed_record_reenters_processing :
    (markAsCompleted 5 [⟨"merged.pdf", 100⟩]
        (markAsProcessing 3 (freshRecord "op-1" "merge" ["a.pdf"]))).status
      = OpStatus.completed ∧
    (markAsProcessing 7 (markAsCompleted 5 [⟨"merged.pdf", 100⟩]
        (markAsProcessing 3 (freshRecord "op-1" "merge" ["a.pdf"])))).status
      = OpStatus.processing :=
  ⟨rfl, rfl⟩

/-- C2 (amended): the three transition methods of the `PdfOperation` model
never fail and never inspect the current status — from *any* record they
unconditionally set `processing`, `completed` and `failed` respectively. -/
theorem mark_transitions_unguarded (now : Nat) (r : PdfOperationRec)
    (outs : List OutputFile) (msg : String) :
    (markAsProcessing now r).status = OpStatus.processing ∧
    (markAsCompleted now outs r).status = OpStatus.completed ∧
    (markAsFailed now msg r).status = OpStatus.failed :=
  ⟨rfl, rfl, rfl⟩

/-- C3 counterexample: two records violate "`outputFiles` non-empty iff
`status == completed`" — the record the upload handler constructs
(`status: 'completed'`, empty `outputFiles`, already at creation), and a
background split completion whose `splitPdfFile` call produced no output
paths (a 0-page input under the `pages` or `size` strategies), which
`markAsCompleted`s an empty descriptor list. -/
theorem completed_records_with_empty_outputs :
    ((uploadRecord "op-1" ["a.pdf"]).status = OpStatus.completed ∧
     (uploadRecord "op-1" ["a.pdf"]).outputFiles = []) ∧
    ((markAsCompleted 5 []
        (markAsProcessing 3 (freshRecord "op-2" "split" ["empty.pdf"]))).status
          = OpStatus.completed ∧
     (markAsCompleted 5 []
        (markAsProcessing 3 (freshRecord "op-2" "split" ["empty.pdf"]))).outputFiles
          = []) :=
  ⟨⟨rfl, rfl⟩, ⟨rfl, rfl⟩⟩

/-- C3 (amended): along the background merge/split lifecycle, a non-empty
`outputFiles` occurs only in the `completed` state (pending, processing
and failed records always carry the empty list); the converse direction
holds for merge operations, whose completion always records exactly one
output descriptor, but fails in general — the upload handler's record and
a zero-output split completion are `completed` with empty `outputFiles`. -/
theorem background_lifecycle_outputs_iff_completed (r : PdfOperationRec)
    (h : BackgroundReachable r) :
    (r.outputFiles ≠ [] → r.status = OpStatus.completed) ∧
    (r.operationType = "merge" →
      (r.outputFiles ≠ [] ↔ r.status = OpStatus.completed)) := by
  cases h with
  | created opId ty inputs hty =>
    simp [freshRecord]
  | processing opId ty inputs t hty =>
    simp [markAsProcessing, freshRecord]
  | completedMerge opId inputs t₁ t₂ out =>
    simp [markAsCompleted, markAsProcessing, freshRecord]
  | completedSplit opId inputs t₁ t₂ outs =>
    refine ⟨fun _ => rfl, fun hty => ?_⟩
    simp [markAsCompleted, markAsProcessing, freshRecord] at hty
  | failedStep opId ty inputs t₁ t₂ msg hty =>
    simp [markAsFailed, markAsProcessing, freshRecord]

/-- C3 witness: a concretely completed merge operation, where both
directions of the invariant apply. -/
theorem background_lifecycle_outputs_iff_completed_witness :
    ((markAsCompleted 5 [⟨"merged.pdf", 100⟩]
        (markAsProcessing 3 (freshRecord "op-1" "merge" ["a.pdf"]))).outputFiles ≠ []
      → (markAsCompleted 5 [⟨"merged.pdf", 100⟩]
        (markAsProcessing 3 (freshRecord "op-1" "merge" ["a.pdf"]))).status
          = OpStatus.completed) ∧
    ((markAsCompleted 5 [⟨"merged.pdf", 100⟩]
        (markAsProcessing 3 (freshRecord "op-1" "merge" ["a.pdf"]))).operationType
          = "merge"
      → ((markAsCompleted 5 [⟨"merged.pdf", 100⟩]
        (markAsProcessing 3 (freshRecord "op-1" "merge" ["a.pdf"]))).outputFiles ≠ []
        ↔ (markAsCompleted 5 [⟨"merged.pdf", 100⟩]
        (markAsProcessing 3 (freshRecord "op-1" "merge" ["a.pdf"]))).status
          = OpStatus.completed)) :=
  background_lifecycle_outputs_iff_completed _
    (BackgroundReachable.completedMerge "op-1" ["a.pdf"] 3 5 ⟨"merged.pdf", 100⟩)

/-- C5: the schema enum for `operationType` is `['merge', 'split']` —
`'upload'` is *not* accepted, so saving the record the upload handler
creates (`operationType: 'upload'`) fails mongoose validation. -/
theorem operationType_enum_rejects_upload :
    validOperationType "merge" = true ∧
    validOperationType "split" = true ∧
    validOperationType "upload" = false ∧
    (saveRecord (uploadRecord "op-1" ["a.pdf"])).isOk = false :=
  ⟨by decide, by decide, by decide, by decide⟩

/-- C6: for `T ≥ 1` total pages and `pagesPerFile = k ≥ 1`, size-based
splitting produces exactly `⌈T/k⌉ = (T + k - 1) / k` outputs, chunk `i`
covering the 0-based half-open page interval `[i·k, min((i+1)·k, T))`. -/
theorem splitSize_count_and_coverage (T k : Nat) (_hT : 1 ≤ T) (hk : 1 ≤ k) :
    (splitSizePlan T k).length = (T + k - 1) / k ∧
    ∀ i, i < (T + k - 1) / k →
      (splitSizePlan T k)[i]? =
        some (List.range' (i * k) (min ((i + 1) * k) T - i * k)) := by
  have hmax : max 1 k = k := Nat.max_eq_right hk
  refine ⟨?_, ?_⟩
  · simp [splitSizePlan, numberOfFiles, hmax]
  · intro i hi
    simp only [splitSizePlan, hmax]
    rw [List.getElem?_map, List.getElem?_range (by simpa [numberOfFiles] using hi)]
    simp [Nat.succ_mul]

/-- C6 witness: 10 pages with `pagesPerFile = 3` give 4 chunks of sizes
`[3, 3, 3, 1]`. -/
theorem splitSize_count_and_coverage_witness :
    (1 ≤ 10 ∧ 1 ≤ 3) ∧
    ((splitSizePlan 10 3).length = (10 + 3 - 1) / 3 ∧
      ∀ i, i < (10 + 3 - 1) / 3 →
        (splitSizePlan 10 3)[i]? =
          some (List.range' (i * 3) (min ((i + 1) * 3) 10 - i * 3))) ∧
    (splitSizePlan 10 3).map List.length = [3, 3, 3, 1] :=
  ⟨⟨by decide, by decide⟩,
   splitSize_count_and_coverage 10 3 (by decide) (by decide),
   by decide⟩

/-- Helper: when every range token parses, `splitRangeRun` writes one
output per token — the pages of that token's range — and signals no
error. -/
theorem splitRangeRun_all_ok (ranges : List String) (total : Nat)
    (hvalid : ∀ r ∈ ranges, (parsePageRange r total).isOk) :
    (splitRangeRun ranges total).2 = none ∧
    (splitRangeRun ranges total).1.length = ranges.length ∧
    ∀ i, (hi : i < ranges.length) → ∃ s e,
      parsePageRange ranges[i] total = .ok (s, e) ∧
      (splitRangeRun ranges total).1[i]? = some (rangePages s e) := by
  induction ranges with
  | nil => exact ⟨rfl, rfl, fun i hi => absurd hi (by simp)⟩
  | cons r rest ih =>
    have hr := hvalid r (List.mem_cons_self r rest)
    cases hp : parsePageRange r total with
    | error msg => rw [hp] at hr; simp [Except.isOk, Except.toBool] at hr
    | ok se =>
      obtain ⟨s, e⟩ := se
      obtain ⟨h2, hlen, hidx⟩ :=
        ih (fun x hx => hvalid x (List.mem_cons_of_mem r hx))
      refine ⟨by simp [splitRangeRun, hp, h2], by simp [splitRangeRun, hp, hlen], ?_⟩
      intro i hi
      cases i with
      | zero =>
        exact ⟨s, e, by simpa using hp, by simp [splitRangeRun, hp]⟩
      | succ n =>
        have hn : n < rest.length := by simpa using hi
        obtain ⟨s', e', hp', hidx'⟩ := hidx n hn
        refine ⟨s', e', by simpa using hp', ?_⟩
        simpa [splitRangeRun, hp] using hidx'

/-- C7: on a non-empty list of ranges that all parse, range splitting
succeeds with exactly one output per listed range, in list order — even
for overlapping or out-of-order ranges — output `i` holding the
`endPage + 1 - startPage` 0-based pages `startPage - 1 .. endPage - 1` of
range `i`. -/
theorem splitRange_one_output_per_range (ranges : List String) (total : Nat)
    (hne : ranges ≠ [])
    (hvalid : ∀ r ∈ ranges, (parsePageRange r total).isOk) :
    ∃ outs, splitRangeCase ranges total = (outs, none) ∧
      outs.length = ranges.length ∧
      ∀ i, (hi : i < ranges.length) → ∃ s e,
        parsePageRange ranges[i] total = .ok (s, e) ∧
        outs[i]? = some (rangePages s e) ∧
        (rangePages s e).length = e + 1 - s := by
  obtain ⟨h2, hlen, hidx⟩ := splitRangeRun_all_ok ranges total hvalid
  have hcase : splitRangeCase ranges total = splitRangeRun ranges total := by
    unfold splitRangeCase
    rw [if_neg (by simpa [List.isEmpty_iff] using hne)]
  refine ⟨(splitRangeRun ranges total).1, ?_, hlen, ?_⟩
  · rw [hcase, ← h2]
  · intro i hi
    obtain ⟨s, e, hp, hout⟩ := hidx i hi
    exact ⟨s, e, hp, hout, by simp [rangePages]⟩

/-- C7 witness: ranges `["1-2", "5"]` on a 6-page document — two outputs
with pages `[0, 1]` and `[4]`. -/
theorem splitRange_one_output_per_range_witness :
    ∃ outs, splitRangeCase ["1-2", "5"] 6 = (outs, none) ∧
      outs.length = (["1-2", "5"] : List String).length ∧
      ∀ i, (hi : i < (["1-2", "5"] : List String).length) → ∃ s e,
        parsePageRange (["1-2", "5"] : List String)[i] 6 = .ok (s, e) ∧
        outs[i]? = some (rangePages s e) ∧
        (rangePages s e).length = e + 1 - s :=
  splitRange_one_output_per_range ["1-2", "5"] 6 (by decide) (by decide)

/-- Helper: `attachOrders` leaves the page lists of the inputs unchanged. -/
theorem attachOrdersAux_map_pages (mo : List Nat) (i : Nat)
    (inputs : List (List Nat)) :
    (attachOrdersAux mo i inputs).map MergeFile.pages = inputs := by
  induction inputs generalizing i with
  | nil => rfl
  | cons p rest ih => simp [attachOrdersAux, ih]

/-- Helper: the merged document's page count is the sum of the inputs'
page counts (the stable sort permutes the files but drops none). -/
theorem mergePdfFiles_length (files : List MergeFile) :
    (mergePdfFiles files).length
      = ((files.map MergeFile.pages).map List.length).sum := by
  unfold mergePdfFiles
  rw [List.length_flatten]
  exact List.Perm.sum_eq
    (((List.perm_insertionSort _ files).map MergeFile.pages).map List.length)

/-- C8: splitting a `T`-page document with the per-page strategy and
merging the parts with the default (empty) merge order yields a document
with exactly `T` pages. -/
theorem splitPages_then_merge_pageCount (T : Nat) :
    (mergePipeline (splitPagesPlan T) []).length = T := by
  unfold mergePipeline
  rw [show orderedFiles (attachOrders (splitPagesPlan T) []) []
        = attachOrders (splitPagesPlan T) [] from rfl]
  rw [mergePdfFiles_length]
  unfold attachOrders
  rw [attachOrdersAux_map_pages]
  unfold splitPagesPlan
  rw [List.map_map]
  rw [show (List.length ∘ fun i : Nat => [i]) = fun _ : Nat => 1 from rfl]
  simp

/-- C4 counterexample: the range list `["1-2", "5-9"]` on a 6-page
document contains the invalid range `5-9` (`end > total`), yet it passes
request validation (the validator never sees the page count), and the
split loop writes the output for the valid earlier range `1-2` (pages
`[0, 1]`) *before* failing on `5-9`. -/
theorem range_overflow_writes_before_rejection :
    validateSplitRanges ["1-2", "5-9"] = none ∧
    splitRangeCase ["1-2", "5-9"] 6 =
      ([[0, 1]], some "Invalid page range: 5-9. Pages must be between 1 and 6") :=
  ⟨by decide, by decide⟩

/-- Helper: one offending token makes the validator report an error. -/
theorem firstRangeError_of_bad {l : List String} {r : String}
    (hr : r ∈ l) (hbad : validateRangeToken r ≠ none) :
    firstRangeError l ≠ none := by
  induction l with
  | nil => cases hr
  | cons x rest ih =>
    unfold firstRangeError
    cases hx : validateRangeToken x with
    | some e => simp
    | none =>
      rcases List.mem_cons.mp hr with h | h
      · rw [← h] at hx; exact absurd hx hbad
      · simpa using ih h

/-- C4 (amended): a list containing a token the validator can check —
non-numeric, malformed, or a dash range with `start ≥ end` — is rejected
before any output is written; but the `end > total` check lives only
inside the split loop, which writes outputs for exactly the longest prefix
of parseable ranges before aborting, so earlier valid ranges *are* written
when a later range exceeds the page count. -/
theorem splitRange_validation_and_partial_writes (ranges : List String)
    (total : Nat) :
    ((∃ r ∈ ranges, validateRangeToken r ≠ none) →
      validateSplitRanges ranges ≠ none) ∧
    (splitRangeRun ranges total).1 =
      (ranges.takeWhile (fun r => (parsePageRange r total).isOk)).map
        (fun r =>
          match parsePageRange r total with
          | .ok (s, e) => rangePages s e
          | .error _ => []) := by
  constructor
  · rintro ⟨r, hr, hbad⟩
    have hne : ranges ≠ [] := by rintro rfl; simp at hr
    unfold validateSplitRanges
    rw [if_neg (by simpa [List.isEmpty_iff] using hne)]
    exact firstRangeError_of_bad hr hbad
  · induction ranges with
    | nil => rfl
    | cons r rest ih =>
      cases hp : parsePageRange r total with
      | error msg =>
        simp [splitRangeRun, hp, List.takeWhile_cons, Except.isOk, Except.toBool]
      | ok se =>
        obtain ⟨s, e⟩ := se
        simp [splitRangeRun, hp, List.takeWhile_cons, Except.isOk, Except.toBool, ih]

/-- C4 witness: the token `"x"` is rejected by validation, and the run on
`["1-2", "5-9"]` over 6 pages writes exactly the output of the valid
prefix `["1-2"]`. -/
theorem splitRange_validation_and_partial_writes_witness :
    validateSplitRanges ["x"] ≠ none ∧
    (splitRangeRun ["1-2", "5-9"] 6).1 = [[0, 1]] := by
  constructor
  · exact (splitRange_validation_and_partial_writes ["x"] 1).1
      ⟨"x", by decide, by decide⟩
  · rw [(splitRange_validation_and_partial_writes ["1-2", "5-9"] 6).2]
    decide

/-- Helper: splitting a character list at the first `'_'`, when neither
left part contains one, is unambiguous. -/
theorem noUnderscore_append_inj {l₁ l₂ r₁ r₂ : List Char}
    (h₁ : '_' ∉ l₁) (h₂ : '_' ∉ l₂)
    (h : l₁ ++ '_' :: r₁ = l₂ ++ '_' :: r₂) : l₁ = l₂ ∧ r₁ = r₂ := by
  induction l₁ generalizing l₂ with
  | nil =>
    cases l₂ with
    | nil => simpa using h
    | cons b bs =>
      simp only [List.nil_append, List.cons_append, List.cons.injEq] at h
      exact absurd (h.1 ▸ List.mem_cons_self b bs) h₂
  | cons a as ih =>
    cases l₂ with
    | nil =>
      simp only [List.nil_append, List.cons_append, List.cons.injEq] at h
      exact absurd (h.1 ▸ List.mem_cons_self a as) h₁
    | cons b bs =>
      simp only [List.cons_append, List.cons.injEq] at h
      obtain ⟨hab, hrest⟩ := h
      have h₁' : '_' ∉ as := fun hm => h₁ (List.mem_cons_of_mem a hm)
      have h₂' : '_' ∉ bs := fun hm => h₂ (List.mem_cons_of_mem b hm)
      obtain ⟨he, hr⟩ := ih h₁' h₂' hrest
      exact ⟨by rw [hab, he], hr⟩

/-- Helper: character-list shape of a merged-output filename. -/
theorem mergedFileName_data (a : String) (t : Nat) :
    (mergedFileName a t).data =
      "merged_".data ++ (a.data ++ '_' :: ((toString t).data ++ ".pdf".data)) := by
  have h1 : ("_" : String).data = ['_'] := rfl
  simp [mergedFileName, String.data_append, List.append_assoc, h1]

/-- Helper: character-list shape of a per-page split filename. -/
theorem splitPageFileName_data (a : String) (i t : Nat) :
    (splitPageFileName a i t).data =
      "split_".data ++ (a.data ++ '_' ::
        ("page_".data ++ (toString (i + 1)).data ++ ['_']
          ++ (toString t).data ++ ".pdf".data)) := by
  have h1 : ("_" : String).data = ['_'] := rfl
  have h2 : ("_page_" : String).data = '_' :: "page_".data := rfl
  simp [splitPageFileName, String.data_append, List.append_assoc, h1, h2]

/-- Helper: character-list shape of a range split filename. -/
theorem splitRangeFileName_data (a : String) (s e t : Nat) :
    (splitRangeFileName a s e t).data =
      "split_".data ++ (a.data ++ '_' ::
        ("range_".data ++ (toString s).data ++ ['-'] ++ (toString e).data
          ++ ['_'] ++ (toString t).data ++ ".pdf".data)) := by
  have h1 : ("_" : String).data = ['_'] := rfl
  have h2 : ("_range_" : String).data = '_' :: "range_".data := rfl
  have h3 : ("-" : String).data = ['-'] := rfl
  simp [splitRangeFileName, String.data_append, List.append_assoc, h1, h2, h3]

/-- Helper: character-list shape of a size split filename. -/
theorem splitPartFileName_data (a : String) (i t : Nat) :
    (splitPartFileName a i t).data =
      "split_".data ++ (a.data ++ '_' ::
        ("part_".data ++ (toString (i + 1)).data ++ ['_']
          ++ (toString t).data ++ ".pdf".data)) := by
  have h1 : ("_" : String).data = ['_'] := rfl
  have h2 : ("_part_" : String).data = '_' :: "part_".data := rfl
  simp [splitPartFileName, String.data_append, List.append_assoc, h1, h2]

/-- C9 counterexample: two runs of the merge transformer for the *same*
`(operationId, suffix)` pair produce different filenames, because
`Date.now()` is embedded — the filename is not a function of
`(operationId, suffix)` alone. -/
theorem mergedFileName_not_function_of_opId :
    mergedFileName "op" 1 ≠ mergedFileName "op" 2 := by decide

/-- C9 (amended): filenames are a deterministic function of
`(operationId, suffix, Date.now())`, and each embeds the `operationId` as
its first underscore-delimited field after the kind prefix; since UUID
operation ids contain no underscore, outputs of two distinct operations
never collide — in any pairing of the four filename families, whatever the
suffixes and timestamps. -/
theorem fileNames_embed_operationId (a b : String)
    (ha : '_' ∉ a.data) (hb : '_' ∉ b.data) (hab : a ≠ b)
    (t₁ t₂ i j s₁ e₁ s₂ e₂ : Nat) :
    (mergedFileName a t₁ ≠ mergedFileName b t₂ ∧
     splitPageFileName a i t₁ ≠ splitPageFileName b j t₂ ∧
     splitRangeFileName a s₁ e₁ t₁ ≠ splitRangeFileName b s₂ e₂ t₂ ∧
     splitPartFileName a i t₁ ≠ splitPartFileName b j t₂) ∧
    (mergedFileName a t₁ ≠ splitPageFileName b j t₂ ∧
     mergedFileName a t₁ ≠ splitRangeFileName b s₂ e₂ t₂ ∧
     mergedFileName a t₁ ≠ splitPartFileName b j t₂ ∧
     splitPageFileName a i t₁ ≠ splitRangeFileName b s₂ e₂ t₂ ∧
     splitPageFileName a i t₁ ≠ splitPartFileName b j t₂ ∧
     splitRangeFileName a s₁ e₁ t₁ ≠ splitPartFileName b j t₂) := by
  have hm : ("merged_" : String).data = ['m','e','r','g','e','d','_'] := rfl
  have hs : ("split_" : String).data = ['s','p','l','i','t','_'] := rfl
  have hpg : ("page_" : String).data = ['p','a','g','e','_'] := rfl
  have hrg : ("range_" : String).data = ['r','a','n','g','e','_'] := rfl
  have hpt : ("part_" : String).data = ['p','a','r','t','_'] := rfl
  refine ⟨⟨?_, ?_, ?_, ?_⟩, ?_, ?_, ?_, ?_, ?_, ?_⟩
  · intro h
    apply hab; apply String.ext
    have hd := congrArg String.data h
    rw [mergedFileName_data, mergedFileName_data] at hd
    exact (noUnderscore_append_inj ha hb (List.append_cancel_left hd)).1
  · intro h
    apply hab; apply String.ext
    have hd := congrArg String.data h
    rw [splitPageFileName_data, splitPageFileName_data] at hd
    exact (noUnderscore_append_inj ha hb (List.append_cancel_left hd)).1
  · intro h
    apply hab; apply String.ext
    have hd := congrArg String.data h
    rw [splitRangeFileName_data, splitRangeFileName_data] at hd
    exact (noUnderscore_append_inj ha hb (List.append_cancel_left hd)).1
  · intro h
    apply hab; apply String.ext
    have hd := congrArg String.data h
    rw [splitPartFileName_data, splitPartFileName_data] at hd
    exact (noUnderscore_append_inj ha hb (List.append_cancel_left hd)).1
  · intro h
    have hd := congrArg String.data h
    rw [mergedFileName_data, splitPageFileName_data] at hd
    simp [hm, hs] at hd
  · intro h
    have hd := congrArg String.data h
    rw [mergedFileName_data, splitRangeFileName_data] at hd
    simp [hm, hs] at hd
  · intro h
    have hd := congrArg String.data h
    rw [mergedFileName_data, splitPartFileName_data] at hd
    simp [hm, hs] at hd
  · intro h
    have hd := congrArg String.data h
    rw [splitPageFileName_data, splitRangeFileName_data] at hd
    have hrest := (noUnderscore_append_inj ha hb (List.append_cancel_left hd)).2
    simp [hpg, hrg] at hrest
  · intro h
    have hd := congrArg String.data h
    rw [splitPageFileName_data, splitPartFileName_data] at hd
    have hrest := (noUnderscore_append_inj ha hb (List.append_cancel_left hd)).2
    simp [hpg, hpt] at hrest
  · intro h
    have hd := congrArg String.data h
    rw [splitRangeFileName_data, splitPartFileName_data] at hd
    have hrest := (noUnderscore_append_inj ha hb (List.append_cancel_left hd)).2
    simp [hrg, hpt] at hrest

/-- C9 witness: two concrete distinct operation ids never collide in any
pairing of the filename families. -/
theorem fileNames_embed_operationId_witness :
    ('_' ∉ ("aaa" : String).data) ∧ ('_' ∉ ("bbb" : String).data) ∧
    ("aaa" : String) ≠ "bbb" ∧
    ((mergedFileName "aaa" 1 ≠ mergedFileName "bbb" 2 ∧
      splitPageFileName "aaa" 0 1 ≠ splitPageFileName "bbb" 4 2 ∧
      splitRangeFileName "aaa" 1 2 1 ≠ splitRangeFileName "bbb" 3 4 2 ∧
      splitPartFileName "aaa" 0 1 ≠ splitPartFileName "bbb" 4 2) ∧
     (mergedFileName "aaa" 1 ≠ splitPageFileName "bbb" 4 2 ∧
      mergedFileName "aaa" 1 ≠ splitRangeFileName "bbb" 3 4 2 ∧
      mergedFileName "aaa" 1 ≠ splitPartFileName "bbb" 4 2 ∧
      splitPageFileName "aaa" 0 1 ≠ splitRangeFileName "bbb" 3 4 2 ∧
      splitPageFileName "aaa" 0 1 ≠ splitPartFileName "bbb" 4 2 ∧
      splitRangeFileName "aaa" 1 2 1 ≠ splitPartFileName "bbb" 4 2)) :=
  ⟨by decide, by decide, by decide,
   fileNames_embed_operationId "aaa" "bbb" (by decide) (by decide) (by decide)
     1 2 0 4 1 2 3 4⟩

/-- C10: for any completed operation with two or more output files the
bulk-download handler reaches the branch that evaluates
`require('archiver')` inside an ES module, which throws
`ReferenceError: require is not defined` — no zip archive is ever
produced. -/
theorem bulkDownload_multi_output_reference_error (r : PdfOperationRec)
    (hstatus : r.status = OpStatus.completed)
    (hlen : 2 ≤ r.outputFiles.length) :
    bulkDownload (some r) = BulkDownloadResult.referenceError "require is not defined" := by
  rcases houts : r.outputFiles with _ | ⟨f, _ | ⟨g, rest⟩⟩
  · rw [houts] at hlen; simp at hlen
  · rw [houts] at hlen; simp at hlen
  · simp [bulkDownload, hstatus, houts]

/-- C10 witness: a concrete completed split operation with two outputs. -/
theorem bulkDownload_multi_output_reference_error_witness :
    bulkDownload (some (markAsCompleted 5 [⟨"p1.pdf", 10⟩, ⟨"p2.pdf", 11⟩]
        (markAsProcessing 3 (freshRecord "op-1" "split" ["a.pdf"]))))
      = BulkDownloadResult.referenceError "require is not defined" :=
  bulkDownload_multi_output_reference_error _ (by decide) (by decide)

end PdfBackend
